import Mathlib

/-!
Verification of `src/hooks/useMicroInteractions.ts` (PrismaUI).

The hook is a configuration-driven mapping from transient interaction state
(hovered / focused / active / loading) plus pointer coordinates to style
properties applied to one surface element.  Below, each relevant piece of the
TypeScript source is embedded shallowly:

* pure computations (`effectivePerformance`, `getEffectScale`, the per-family
  default merging, `createRipple`'s geometry) become Lean functions on `ℚ`,
  `String` and `Option`;
* JavaScript's defaulting idiom `x || d` is modelled by `jsOrQ` / `jsOrN` /
  `jsOrS` (falsy values — `0`, the empty string, or a missing field — fall
  back to the default);
* JavaScript floating-point division, which produces `NaN` on `0 / 0`, is
  modelled by the `JSNum` type for the one computation where it matters
  (the magnetic effect);
* the React `useEffect` lifecycle of the loading animation (run cleanup of
  the previous execution, then run the body, which may register a new
  cleanup) becomes an explicit step function on an `AnimState`, iterated
  over a trace of effect executions;
* style mutation on the DOM element becomes a record update on
  `ElementStyle`.
-/

namespace MicroInteractions

/-! ## Capability classifier (`effectivePerformance`, source lines 78–91) -/

/-- The four requested performance modes of `MicroInteractionOptions.performance`. -/
inductive PerfMode where
  | auto
  | high
  | balanced
  | economy
deriving DecidableEq, Repr

/-- The capability snapshot read from `navigator`: `deviceMemory` (GB),
`hardwareConcurrency` (logical cores), `connection.effectiveType`.
Each field may be absent (`none`). -/
structure CapabilitySnapshot where
  deviceMemory : Option ℚ
  hardwareConcurrency : Option ℕ
  effectiveType : Option String
deriving DecidableEq, Repr

/-- JavaScript `x || d` for an optional number: a missing field or the falsy
value `0` falls back to the default. -/
def jsOrQ (x : Option ℚ) (d : ℚ) : ℚ :=
  match x with
  | none => d
  | some v => if v = 0 then d else v

/-- JavaScript `x || d` for an optional natural number. -/
def jsOrN (x : Option ℕ) (d : ℕ) : ℕ :=
  match x with
  | none => d
  | some v => if v = 0 then d else v

/-- JavaScript `x || d` for an optional string (the empty string is falsy). -/
def jsOrS (x : Option String) (d : String) : String :=
  match x with
  | none => d
  | some v => if v = "" then d else v

/-- Source lines 78–91.  `performance !== 'auto'` passes through unchanged;
otherwise the snapshot (with `|| 4`, `|| 4`, `|| '4g'` defaults) is
classified into economy / high / balanced. -/
def effectivePerformance (performance : PerfMode) (snap : CapabilitySnapshot) :
    PerfMode :=
  if performance ≠ PerfMode.auto then performance
  else
    let deviceMemory := jsOrQ snap.deviceMemory 4
    let hardwareConcurrency := jsOrN snap.hardwareConcurrency 4
    let connectionType := jsOrS snap.effectiveType "4g"
    if deviceMemory < 2 ∨ hardwareConcurrency < 2 ∨ connectionType = "slow-2g" then
      PerfMode.economy
    else if deviceMemory ≥ 8 ∧ hardwareConcurrency ≥ 8 ∧ connectionType = "4g" then
      PerfMode.high
    else
      PerfMode.balanced

/-- The classifier as the spec's words describe it (claim C4): explicit modes
pass through; under `auto`, a *missing* field defaults to 4 GB / 4 cores /
`'4g'`, then economy if memory < 2 or cores < 2 or network is `'slow-2g'`,
else high if memory ≥ 8 and cores ≥ 8 and network is `'4g'`, else balanced.
Stated with `Option.getD` (plain missing-field defaulting, the spec's
reading) to be compared with the source's falsy-defaulting above. -/
def classifySpec (mode : PerfMode) (snap : CapabilitySnapshot) : PerfMode :=
  if mode ≠ PerfMode.auto then mode
  else
    let mem := snap.deviceMemory.getD 4
    let cores := snap.hardwareConcurrency.getD 4
    let net := snap.effectiveType.getD "4g"
    if mem < 2 ∨ cores < 2 ∨ net = "slow-2g" then PerfMode.economy
    else if mem ≥ 8 ∧ cores ≥ 8 ∧ net = "4g" then PerfMode.high
    else PerfMode.balanced

/-! ## Performance-dependent effect scale (`getEffectScale`, source lines 203–210)

The source switches on the effective performance value; the `default` arm
returns `0.8`.  The tier is kept as a raw string here so that the fallback
arm is observable. -/

/-- Source lines 203–210: switch on the tier with a `default: return 0.8`. -/
def getEffectScale (tier : String) : ℚ :=
  if tier = "economy" then 1/2
  else if tier = "balanced" then 4/5
  else if tier = "high" then 1
  else 4/5

/-- The string the source's tier values carry (used when feeding
`effectivePerformance`'s result to `getEffectScale`). -/
def PerfMode.str : PerfMode → String
  | .auto => "auto"
  | .high => "high"
  | .balanced => "balanced"
  | .economy => "economy"

/-! ## Parameter resolution (source lines 133–193)

Each effect family's defaults record is built by spreading the caller's
sub-config over a fixed default record: `{ d₁, …, dₙ, ...override }`.
On these flat records the spread is exactly field-level `Option.getD`:
a field the caller supplied wins, an absent field falls back to the
default.  One `Option`-field config structure and one fully-resolved
structure per family. -/

/-- `active.feedback`: `'haptic' | 'visual' | 'both'`. -/
inductive Feedback where
  | haptic
  | visual
  | both
deriving DecidableEq, Repr

/-- Caller sub-config `hover` (source lines 7–16). -/
structure HoverConfig where
  scale : Option ℚ := none
  rotate : Option ℚ := none
  translateY : Option ℚ := none
  brightness : Option ℚ := none
  saturate : Option ℚ := none
  blur : Option ℚ := none
  duration : Option ℚ := none
  easing : Option String := none
deriving DecidableEq, Repr

/-- The complete hover parameter set after resolution. -/
structure HoverResolved where
  scale : ℚ
  rotate : ℚ
  translateY : ℚ
  brightness : ℚ
  saturate : ℚ
  blur : ℚ
  duration : ℚ
  easing : String
deriving DecidableEq, Repr

/-- Source lines 133–143 (`hoverDefaults`). -/
def resolveHover (hover : HoverConfig) : HoverResolved where
  scale := hover.scale.getD (51/50)
  rotate := hover.rotate.getD 0
  translateY := hover.translateY.getD (-2)
  brightness := hover.brightness.getD (11/10)
  saturate := hover.saturate.getD (11/10)
  blur := hover.blur.getD 0
  duration := hover.duration.getD 200
  easing := hover.easing.getD "cubic-bezier(0.4, 0, 0.2, 1)"

/-- A resolved hover record viewed again as a caller config (every field present). -/
def HoverResolved.toConfig (r : HoverResolved) : HoverConfig where
  scale := some r.scale
  rotate := some r.rotate
  translateY := some r.translateY
  brightness := some r.brightness
  saturate := some r.saturate
  blur := some r.blur
  duration := some r.duration
  easing := some r.easing

/-- Caller sub-config `focus` (source lines 17–23). -/
structure FocusConfig where
  scale : Option ℚ := none
  glow : Option Bool := none
  glowColor : Option String := none
  borderScale : Option ℚ := none
  duration : Option ℚ := none
deriving DecidableEq, Repr

/-- The complete focus parameter set after resolution. -/
structure FocusResolved where
  scale : ℚ
  glow : Bool
  glowColor : String
  borderScale : ℚ
  duration : ℚ
deriving DecidableEq, Repr

/-- Source lines 145–152 (`focusDefaults`). -/
def resolveFocus (focus : FocusConfig) : FocusResolved where
  scale := focus.scale.getD (51/50)
  glow := focus.glow.getD true
  glowColor := focus.glowColor.getD "#3B82F6"
  borderScale := focus.borderScale.getD (11/10)
  duration := focus.duration.getD 200

/-- A resolved focus record viewed again as a caller config. -/
def FocusResolved.toConfig (r : FocusResolved) : FocusConfig where
  scale := some r.scale
  glow := some r.glow
  glowColor := some r.glowColor
  borderScale := some r.borderScale
  duration := some r.duration

/-- Caller sub-config `active` (source lines 24–29). -/
structure ActiveConfig where
  scale : Option ℚ := none
  rotate : Option ℚ := none
  duration : Option ℚ := none
  feedback : Option Feedback := none
deriving DecidableEq, Repr

/-- The complete active-press parameter set after resolution. -/
structure ActiveResolved where
  scale : ℚ
  rotate : ℚ
  duration : ℚ
  feedback : Feedback
deriving DecidableEq, Repr

/-- Source lines 154–160 (`activeDefaults`). -/
def resolveActive (active : ActiveConfig) : ActiveResolved where
  scale := active.scale.getD (19/20)
  rotate := active.rotate.getD 0
  duration := active.duration.getD 100
  feedback := active.feedback.getD Feedback.visual

/-- A resolved active record viewed again as a caller config. -/
def ActiveResolved.toConfig (r : ActiveResolved) : ActiveConfig where
  scale := some r.scale
  rotate := some r.rotate
  duration := some r.duration
  feedback := some r.feedback

/-- Caller sub-config `loading` (source lines 35–38).  The animation name is
kept as a raw string so the unrecognized-name case (claim C8) is statable. -/
structure LoadingConfig where
  animation : Option String := none
  duration : Option ℚ := none
deriving DecidableEq, Repr

/-- The complete loading parameter set after resolution. -/
structure LoadingResolved where
  animation : String
  duration : ℚ
deriving DecidableEq, Repr

/-- Source lines 169–173 (`loadingDefaults`). -/
def resolveLoading (loading : LoadingConfig) : LoadingResolved where
  animation := loading.animation.getD "spin"
  duration := loading.duration.getD 1000

/-- A resolved loading record viewed again as a caller config. -/
def LoadingResolved.toConfig (r : LoadingResolved) : LoadingConfig where
  animation := some r.animation
  duration := some r.duration

/-- Caller sub-config `magnetic` (source lines 39–42). -/
structure MagneticConfig where
  strength : Option ℚ := none
  distance : Option ℚ := none
deriving DecidableEq, Repr

/-- The complete magnetic parameter set after resolution. -/
structure MagneticResolved where
  strength : ℚ
  distance : ℚ
deriving DecidableEq, Repr

/-- Source lines 175–179 (`magneticDefaults`). -/
def resolveMagnetic (magnetic : MagneticConfig) : MagneticResolved where
  strength := magnetic.strength.getD (1/2)
  distance := magnetic.distance.getD 100

/-- A resolved magnetic record viewed again as a caller config. -/
def MagneticResolved.toConfig (r : MagneticResolved) : MagneticConfig where
  strength := some r.strength
  distance := some r.distance

/-- Caller sub-config `ripple` (source lines 43–47). -/
structure RippleConfig where
  color : Option String := none
  duration : Option ℚ := none
  scale : Option ℚ := none
deriving DecidableEq, Repr

/-- The complete ripple parameter set after resolution. -/
structure RippleResolved where
  color : String
  duration : ℚ
  scale : ℚ
deriving DecidableEq, Repr

/-- Source lines 181–186 (`rippleDefaults`). -/
def resolveRipple (ripple : RippleConfig) : RippleResolved where
  color := ripple.color.getD "rgba(255, 255, 255, 0.6)"
  duration := ripple.duration.getD 600
  scale := ripple.scale.getD 2

/-- A resolved ripple record viewed again as a caller config. -/
def RippleResolved.toConfig (r : RippleResolved) : RippleConfig where
  color := some r.color
  duration := some r.duration
  scale := some r.scale

/-- Caller sub-config `tilt` (source lines 48–52). -/
structure TiltConfig where
  maxTilt : Option ℚ := none
  scale : Option ℚ := none
  speed : Option ℚ := none
deriving DecidableEq, Repr

/-- The complete tilt parameter set after resolution. -/
structure TiltResolved where
  maxTilt : ℚ
  scale : ℚ
  speed : ℚ
deriving DecidableEq, Repr

/-- Source lines 188–193 (`tiltDefaults`). -/
def resolveTilt (tilt : TiltConfig) : TiltResolved where
  maxTilt := tilt.maxTilt.getD 10
  scale := tilt.scale.getD (51/50)
  speed := tilt.speed.getD 400

/-- A resolved tilt record viewed again as a caller config. -/
def TiltResolved.toConfig (r : TiltResolved) : TiltConfig where
  maxTilt := some r.maxTilt
  scale := some r.scale
  speed := some r.speed

/-! ## The surface element's style (the DOM properties the hook mutates) -/

/-- The style properties of the bound surface element that the interaction
effects write.  Each effect body becomes a function `… → ElementStyle →
ElementStyle` updating only the properties the source assigns. -/
structure ElementStyle where
  transform : String
  filter : String
  transition : String
  boxShadow : String
deriving DecidableEq, Repr

/-- A surface whose style properties have never been written (all empty,
as on a freshly created element). -/
def ElementStyle.initial : ElementStyle :=
  { transform := "", filter := "", transition := "", boxShadow := "" }

/-! ## Hover effect (`applyHoverEffects`, source lines 196–232) -/

/-- Source lines 196–232.  Early-returns (applies nothing) when
`shouldReduceMotion`; when hovered writes transform / filter / transition
scaled by the tier's effect scale; when not hovered resets transform to
`translateZ(0)` (GPU) or the empty string and filter to `none`. -/
def applyHoverEffects (shouldReduceMotion isHovered gpu : Bool) (tier : String)
    (hd : HoverResolved) (st : ElementStyle) : ElementStyle :=
  if shouldReduceMotion then st
  else
    let gpuTransform := if gpu then "translateZ(0)" else ""
    let effectScale := getEffectScale tier
    let adjustedDuration := if shouldReduceMotion then (1 : ℚ) else hd.duration * effectScale
    if isHovered then
      let scale := 1 + (hd.scale - 1) * effectScale
      let translateY := hd.translateY * effectScale
      let brightness := 1 + (hd.brightness - 1) * effectScale
      let rotate := hd.rotate
      let saturate := hd.saturate
      let blur := hd.blur
      let easing := hd.easing
      let transform :=
        s!"scale({scale}) rotate({rotate}deg) translateY({translateY}px) {gpuTransform}"
      let filter :=
        if tier ≠ "economy" then
          s!"brightness({brightness}) saturate({saturate}) blur({blur}px)"
        else "none"
      { st with transform := transform, filter := filter,
                transition := s!"all {adjustedDuration}ms {easing}" }
    else
      { st with transform := if gpu then "translateZ(0)" else "", filter := "none" }

/-! ## Focus effect (source lines 240–254) -/

/-- Source lines 240–254.  `shouldReduceMotion` is in scope in the source
component but is never read by this effect body — the transition always
uses the configured `focusDefaults.duration`. -/
def focusEffectBody (shouldReduceMotion : Bool) (isFocused : Bool)
    (fd : FocusResolved) (st : ElementStyle) : ElementStyle :=
  if isFocused then
    let glowColor := fd.glowColor
    let scale := fd.scale
    let duration := fd.duration
    let st1 := if fd.glow then { st with boxShadow := s!"0 0 20px {glowColor}" } else st
    { st1 with transform := s!"scale({scale})",
               transition := s!"all {duration}ms ease-out" }
  else
    { st with boxShadow := "none" }

/-! ## Active (press) effect (source lines 257–274) -/

/-- Source lines 257–274.  Writes transform and transition only while
`isActive` is true; there is no `else` branch, so a `true → false`
transition leaves the style untouched.  (`shouldReduceMotion` is likewise
in scope but unread.) -/
def activeEffectBody (shouldReduceMotion : Bool) (isActive : Bool)
    (ad : ActiveResolved) (st : ElementStyle) : ElementStyle :=
  if isActive then
    let scale := ad.scale
    let rotate := ad.rotate
    let duration := ad.duration
    { st with transform := s!"scale({scale}) rotate({rotate}deg)",
              transition := s!"all {duration}ms ease-out" }
  else st

/-! ## Loading animation (source lines 277–312) -/

/-- One keyframe of a Web Animations keyframe list: the properties the
source's four patterns set. -/
structure Keyframe where
  transform : Option String := none
  opacity : Option ℚ := none
deriving DecidableEq, Repr

/-- Source lines 283–305: the `keyframes` object literal indexed by the
animation name.  A JavaScript property lookup on a key the object does not
have yields `undefined`, modelled as `none` — there is no `default` arm. -/
def loadingKeyframes (animation : String) : Option (List Keyframe) :=
  if animation = "spin" then
    some [{ transform := some "rotate(0deg)" },
          { transform := some "rotate(360deg)" }]
  else if animation = "pulse" then
    some [{ transform := some "scale(1)", opacity := some 1 },
          { transform := some "scale(1.05)", opacity := some (4/5) },
          { transform := some "scale(1)", opacity := some 1 }]
  else if animation = "bounce" then
    some [{ transform := some "translateY(0)" },
          { transform := some "translateY(-10px)" },
          { transform := some "translateY(0)" }]
  else if animation = "dots" then
    some [{ opacity := some (2/5) },
          { opacity := some 1 },
          { opacity := some (2/5) }]
  else none

/-- The handle returned by `element.animate(keyframes[animation], {duration,
iterations: Infinity, easing: 'ease-in-out'})`, tagged with a fresh id. -/
structure AnimHandle where
  id : ℕ
  keyframes : Option (List Keyframe)
  duration : ℚ
deriving DecidableEq, Repr

/-- The loading `useEffect`'s slot: the animations currently running on the
surface, the cleanup the current effect execution registered (the handle its
`return () => anim.cancel()` would cancel), and a fresh-id counter. -/
structure AnimState where
  nextId : ℕ
  running : List AnimHandle
  cleanup : Option ℕ
deriving DecidableEq, Repr

/-- The slot before the first effect execution: nothing running, no cleanup. -/
def AnimState.init : AnimState := { nextId := 0, running := [], cleanup := none }

/-- One execution of the loading `useEffect` (source lines 277–312) under
React's effect lifecycle: first the cleanup registered by the previous
execution runs (`anim.cancel()`), then the body runs — it early-returns
when `isLoading` is false (registering no cleanup), otherwise it creates a
new looping animation and registers its cancellation as the new cleanup. -/
def runLoadingEffect (s : AnimState) (isLoading : Bool) (ld : LoadingResolved) :
    AnimState :=
  let s1 : AnimState :=
    match s.cleanup with
    | some i => { s with running := s.running.filter (fun h => h.id != i), cleanup := none }
    | none => s
  if isLoading then
    let h : AnimHandle := { id := s1.nextId, keyframes := loadingKeyframes ld.animation,
                            duration := ld.duration }
    { nextId := s1.nextId + 1, running := h :: s1.running, cleanup := some h.id }
  else s1

/-- A whole history of loading-effect executions (each triggered by
`isLoading` toggling or `loadingDefaults` changing), starting from the
initial slot. -/
def runLoadingTrace (tr : List (Bool × LoadingResolved)) : AnimState :=
  tr.foldl (fun s p => runLoadingEffect s p.1 p.2) AnimState.init

/-! ## Magnetic effect (source lines 314–350)

JavaScript numbers divide by zero: `0 / 0` is `NaN` and `x / 0` for `x ≠ 0`
is a signed infinity, and `NaN` propagates through multiplication.  `JSNum`
carries exactly these non-finite values over exact rationals; the magnetic
displacement is computed in `JSNum` where the source divides. -/

/-- A JavaScript number: a finite value (idealized as an exact rational),
a signed infinity, or `NaN`. -/
inductive JSNum where
  | num : ℚ → JSNum
  | posInf
  | negInf
  | nan
deriving DecidableEq, Repr

/-- JavaScript multiplication on `JSNum` (zero times infinity is `NaN`;
`NaN` propagates). -/
def jmul : JSNum → JSNum → JSNum
  | .nan, _ => .nan
  | _, .nan => .nan
  | .num a, .num b => .num (a * b)
  | .num a, .posInf => if a = 0 then .nan else if 0 < a then .posInf else .negInf
  | .num a, .negInf => if a = 0 then .nan else if 0 < a then .negInf else .posInf
  | .posInf, .num b => if b = 0 then .nan else if 0 < b then .posInf else .negInf
  | .negInf, .num b => if b = 0 then .nan else if 0 < b then .negInf else .posInf
  | .posInf, .posInf => .posInf
  | .posInf, .negInf => .negInf
  | .negInf, .posInf => .negInf
  | .negInf, .negInf => .posInf

/-- JavaScript division on `JSNum`: `0 / 0` is `NaN`, a nonzero finite value
divided by `0` is a signed infinity, a finite value divided by an infinity
is `0`, infinity over infinity is `NaN`. -/
def jdiv : JSNum → JSNum → JSNum
  | .nan, _ => .nan
  | _, .nan => .nan
  | .num a, .num b =>
      if b = 0 then
        if a = 0 then .nan else if 0 < a then .posInf else .negInf
      else .num (a / b)
  | .num _, .posInf => .num 0
  | .num _, .negInf => .num 0
  | .posInf, .num b => if 0 ≤ b then .posInf else .negInf
  | .negInf, .num b => if 0 ≤ b then .negInf else .posInf
  | .posInf, .posInf => .nan
  | .posInf, .negInf => .nan
  | .negInf, .posInf => .nan
  | .negInf, .negInf => .nan

/-- The surface's bounding client rect. -/
structure Rect where
  left : ℚ
  top : ℚ
  width : ℚ
  height : ℚ
deriving DecidableEq, Repr

/-- Source lines 316: the magnetic effect is registered only when
`magneticDefaults.strength` is truthy (nonzero). -/
def magneticEnabled (md : MagneticResolved) : Bool := md.strength != 0

/-- Source lines 320–337 (`handleMouseMove` of the magnetic effect): the
translate pair written to the surface's transform.  `sqrt` stands for
`Math.sqrt` applied to the exact value `deltaX² + deltaY²`; the deltas and
threshold comparison are exact, and the division `delta / distance` — the
only place a non-finite value can arise — is taken in `JSNum`. -/
def magneticMouseMove (sqrt : ℚ → ℚ) (md : MagneticResolved) (rect : Rect)
    (clientX clientY : ℚ) : JSNum × JSNum :=
  let centerX := rect.left + rect.width / 2
  let centerY := rect.top + rect.height / 2
  let deltaX := clientX - centerX
  let deltaY := clientY - centerY
  let distance := sqrt (deltaX * deltaX + deltaY * deltaY)
  if distance < md.distance then
    let strength := md.strength
    let translateX :=
      jmul (jmul (jdiv (.num deltaX) (.num distance)) (.num strength))
        (.num (md.distance - distance))
    let translateY :=
      jmul (jmul (jdiv (.num deltaY) (.num distance)) (.num strength))
        (.num (md.distance - distance))
    (translateX, translateY)
  else
    (.num 0, .num 0)

/-! ## Ripple effect (`createRipple` / `handleClick`, source lines 353–395 and 442–446) -/

/-- One spawned ripple `<span>`: its geometry and colors as set by
`createRipple`, its spawn time, and the delay of the `setTimeout` that
removes it. -/
structure RippleSpan where
  left : ℚ
  top : ℚ
  width : ℚ
  height : ℚ
  color : String
  scale : ℚ
  spawnTime : ℚ
  removeDelay : ℚ
deriving DecidableEq, Repr

/-- Source lines 353–395: the ripple spawned at click position
`(clientX, clientY)` at time `now` — sized to the larger of the surface's
width and height, offset by half its size from the click point, removed by
a timer of `rippleDefaults.duration`. -/
def createRipple (rd : RippleResolved) (rect : Rect) (clientX clientY now : ℚ) :
    RippleSpan :=
  let size := max rect.width rect.height
  { left := clientX - rect.left - size / 2
    top := clientY - rect.top - size / 2
    width := size
    height := size
    color := rd.color
    scale := rd.scale
    spawnTime := now
    removeDelay := rd.duration }

/-- The absolute time at which a ripple's removal timer fires. -/
def rippleRemovalTime (r : RippleSpan) : ℚ := r.spawnTime + r.removeDelay

/-- A ripple is attached to the surface from its spawn until its removal
timer fires. -/
def rippleAliveAt (r : RippleSpan) (t : ℚ) : Prop :=
  r.spawnTime ≤ t ∧ t < rippleRemovalTime r

/-- Source lines 442–446 (`handleClick`): spawns a ripple only when the
resolved ripple color is truthy (a nonempty string).  The surface's ripple
children are modelled as the list of spawned-and-not-yet-removed spans. -/
def handleClick (rd : RippleResolved) (rect : Rect) (clientX clientY now : ℚ)
    (ripples : List RippleSpan) : List RippleSpan :=
  if rd.color ≠ "" then ripples ++ [createRipple rd rect clientX clientY now]
  else ripples

/-! ## Tilt effect (source lines 398–433) -/

/-- Source lines 403–420 (`handleMouseMove` of the tilt effect).  The
source's transform template literal spans several lines; its content is
modelled with single spaces between the four parts.  The transition always
uses the configured `tiltDefaults.speed`. -/
def tiltMouseMove (td : TiltResolved) (rect : Rect) (clientX clientY : ℚ)
    (st : ElementStyle) : ElementStyle :=
  let centerX := rect.left + rect.width / 2
  let centerY := rect.top + rect.height / 2
  let deltaX := (clientX - centerX) / (rect.width / 2)
  let deltaY := (clientY - centerY) / (rect.height / 2)
  let tiltX := deltaY * td.maxTilt
  let tiltY := deltaX * td.maxTilt
  let negTiltX := -tiltX
  let scale := td.scale
  let speed := td.speed
  { st with
      transform :=
        s!"perspective(1000px) rotateX({negTiltX}deg) rotateY({tiltY}deg) scale({scale})",
      transition := s!"transform {speed}ms ease-out" }

/-! ## Helper lemmas -/

/-- On a field that is absent or non-falsy, JavaScript `||`-defaulting agrees
with plain missing-field defaulting. -/
lemma jsOrQ_eq_getD (x : Option ℚ) (d : ℚ) (h : ∀ v, x = some v → v ≠ 0) :
    jsOrQ x d = x.getD d := by
  cases x with
  | none => rfl
  | some v => simp [jsOrQ, h v rfl]

/-- Natural-number version of `jsOrQ_eq_getD`. -/
lemma jsOrN_eq_getD (x : Option ℕ) (d : ℕ) (h : ∀ v, x = some v → v ≠ 0) :
    jsOrN x d = x.getD d := by
  cases x with
  | none => rfl
  | some v => simp [jsOrN, h v rfl]

/-- String version of `jsOrQ_eq_getD`. -/
lemma jsOrS_eq_getD (x : Option String) (d : String) (h : ∀ v, x = some v → v ≠ "") :
    jsOrS x d = x.getD d := by
  cases x with
  | none => rfl
  | some v => simp [jsOrS, h v rfl]

/-- `toString` on a string is the string itself (interpolation inserts it). -/
lemma toString_string (s : String) : toString s = s := rfl

/-! ## Claims -/

/-- Claim C4.  For every requested performance mode other than `auto` and
every capability snapshot, the classifier returns the requested mode
unchanged; for `auto` it returns economy if memory < 2 GB or cores < 2 or
the network is `'slow-2g'`, else high if memory ≥ 8 GB and cores ≥ 8 and the
network is `'4g'`, else balanced, with a missing snapshot field defaulting
to 4 GB / 4 cores / `'4g'` (`classifySpec` states these words verbatim).
The hypotheses restrict present snapshot fields to non-falsy values, where
the source's `||`-defaulting coincides with missing-field defaulting. -/
theorem effectivePerformance_matches_spec (mode : PerfMode) (snap : CapabilitySnapshot)
    (hmem : ∀ v, snap.deviceMemory = some v → v ≠ 0)
    (hcores : ∀ v, snap.hardwareConcurrency = some v → v ≠ 0)
    (hnet : ∀ v, snap.effectiveType = some v → v ≠ "") :
    effectivePerformance mode snap = classifySpec mode snap := by
  unfold effectivePerformance classifySpec
  rw [jsOrQ_eq_getD _ _ hmem, jsOrN_eq_getD _ _ hcores, jsOrS_eq_getD _ _ hnet]

/-- Claim C4, witness: the classifier agrees with the spec's formula on a
concrete low-end snapshot under `auto`. -/
theorem effectivePerformance_matches_spec_witness :
    effectivePerformance PerfMode.auto
        { deviceMemory := some 1, hardwareConcurrency := some 1,
          effectiveType := some "slow-2g" }
      = classifySpec PerfMode.auto
          { deviceMemory := some 1, hardwareConcurrency := some 1,
            effectiveType := some "slow-2g" } :=
  effectivePerformance_matches_spec _ _ (by simp) (by simp) (by simp)

/-- Claim C5.  Parameter resolution is a pure field-level merge of caller
overrides over the fixed built-in defaults, for each of the seven effect
families: a config with every field supplied resolves to exactly those
values (caller wins), the empty config resolves to exactly the built-in
default record (absent fields fall back), and resolving an already-resolved
parameter set again yields an identical parameter set (idempotence). -/
theorem resolve_merge_and_idempotent
    (h : HoverConfig) (f : FocusConfig) (a : ActiveConfig) (l : LoadingConfig)
    (m : MagneticConfig) (r : RippleConfig) (t : TiltConfig) :
    (resolveHover (resolveHover h).toConfig = resolveHover h ∧
      (∀ v1 v2 v3 v4 v5 v6 v7 v8,
        resolveHover ⟨some v1, some v2, some v3, some v4, some v5, some v6, some v7, some v8⟩
          = ⟨v1, v2, v3, v4, v5, v6, v7, v8⟩) ∧
      resolveHover {}
        = ⟨51/50, 0, -2, 11/10, 11/10, 0, 200, "cubic-bezier(0.4, 0, 0.2, 1)"⟩) ∧
    (resolveFocus (resolveFocus f).toConfig = resolveFocus f ∧
      (∀ v1 v2 v3 v4 v5,
        resolveFocus ⟨some v1, some v2, some v3, some v4, some v5⟩
          = ⟨v1, v2, v3, v4, v5⟩) ∧
      resolveFocus {} = ⟨51/50, true, "#3B82F6", 11/10, 200⟩) ∧
    (resolveActive (resolveActive a).toConfig = resolveActive a ∧
      (∀ v1 v2 v3 v4,
        resolveActive ⟨some v1, some v2, some v3, some v4⟩ = ⟨v1, v2, v3, v4⟩) ∧
      resolveActive {} = ⟨19/20, 0, 100, Feedback.visual⟩) ∧
    (resolveLoading (resolveLoading l).toConfig = resolveLoading l ∧
      (∀ v1 v2, resolveLoading ⟨some v1, some v2⟩ = ⟨v1, v2⟩) ∧
      resolveLoading {} = ⟨"spin", 1000⟩) ∧
    (resolveMagnetic (resolveMagnetic m).toConfig = resolveMagnetic m ∧
      (∀ v1 v2, resolveMagnetic ⟨some v1, some v2⟩ = ⟨v1, v2⟩) ∧
      resolveMagnetic {} = ⟨1/2, 100⟩) ∧
    (resolveRipple (resolveRipple r).toConfig = resolveRipple r ∧
      (∀ v1 v2 v3, resolveRipple ⟨some v1, some v2, some v3⟩ = ⟨v1, v2, v3⟩) ∧
      resolveRipple {} = ⟨"rgba(255, 255, 255, 0.6)", 600, 2⟩) ∧
    (resolveTilt (resolveTilt t).toConfig = resolveTilt t ∧
      (∀ v1 v2 v3, resolveTilt ⟨some v1, some v2, some v3⟩ = ⟨v1, v2, v3⟩) ∧
      resolveTilt {} = ⟨10, 51/50, 400⟩) := by
  refine ⟨⟨rfl, ?_, rfl⟩, ⟨rfl, ?_, rfl⟩, ⟨rfl, ?_, rfl⟩, ⟨rfl, ?_, rfl⟩,
    ⟨rfl, ?_, rfl⟩, ⟨rfl, ?_, rfl⟩, ⟨rfl, ?_, rfl⟩⟩ <;> intros <;> rfl

/-- The loading-effect slot invariant: the cleanup registered by the current
effect execution cancels exactly the single running animation; when no
cleanup is registered, nothing is running. -/
def AnimState.Good (s : AnimState) : Prop :=
  match s.cleanup with
  | some i => ∃ h, s.running = [h] ∧ h.id = i
  | none => s.running = []

/-- The initial loading-effect slot satisfies the invariant. -/
lemma animState_init_good : AnimState.Good AnimState.init := rfl

/-- One execution of the loading effect preserves the slot invariant: the
previous execution's cleanup cancels the only running animation before the
body (possibly) starts a new one. -/
lemma runLoadingEffect_good {s : AnimState} (hs : s.Good) (b : Bool)
    (ld : LoadingResolved) : (runLoadingEffect s b ld).Good := by
  unfold runLoadingEffect
  cases hc : s.cleanup with
  | none =>
    have hrun : s.running = [] := by
      unfold AnimState.Good at hs
      rw [hc] at hs
      exact hs
    cases b <;> simp [AnimState.Good, hrun, hc]
  | some i =>
    obtain ⟨h, hr, hid⟩ : ∃ h, s.running = [h] ∧ h.id = i := by
      unfold AnimState.Good at hs
      rw [hc] at hs
      exact hs
    cases b <;> simp [AnimState.Good, hr, hid, hc]

/-- The invariant holds after any history of loading-effect executions. -/
lemma runLoadingTrace_good (tr : List (Bool × LoadingResolved)) :
    (runLoadingTrace tr).Good := by
  unfold runLoadingTrace
  suffices hgen : ∀ s : AnimState, s.Good →
      (tr.foldl (fun s p => runLoadingEffect s p.1 p.2) s).Good by
    exact hgen _ animState_init_good
  induction tr with
  | nil => intro s hs; exact hs
  | cons p tl ih =>
    intro s hs
    exact ih _ (runLoadingEffect_good hs p.1 p.2)

/-- Claim C3.  At every point in the controller's lifetime at most one
looping loading animation is bound to the surface: after any history of
loading-effect executions (each `isLoading` toggle or change of the resolved
animation name / duration re-runs the effect, whose React cleanup cancels
the previously created handle before a new one is created), at most one
animation handle is active. -/
theorem loading_animation_never_duplicated (tr : List (Bool × LoadingResolved)) :
    (runLoadingTrace tr).running.length ≤ 1 := by
  have hg := runLoadingTrace_good tr
  unfold AnimState.Good at hg
  cases hc : (runLoadingTrace tr).cleanup with
  | none =>
    rw [hc] at hg
    simp [hg]
  | some i =>
    rw [hc] at hg
    obtain ⟨h, hr, _⟩ := hg
    simp [hr]

/-- Claim C2, counterexample: with the resolved reduce-motion flag true, a
focused surface's transition is written with the configured 200 ms focus
duration, not the minimal 1 ms — the focus effect body never consults the
flag. -/
theorem reduceMotion_focus_duration_counterexample :
    (focusEffectBody true true (resolveFocus {}) ElementStyle.initial).transition
        = "all 200ms ease-out" ∧
    "all 200ms ease-out" ≠ "all 1ms ease-out" :=
  ⟨rfl, by decide⟩

/-- Claim C2, amended: when the resolved reduce-motion flag is true the hover
effect applies no styles at all (early return), while the focus, active,
loading and tilt effects ignore the flag and use their configured durations
unchanged, and a spawned ripple's removal timer likewise uses the configured
ripple duration — no effect family ever substitutes the minimal 1 ms
duration (the magnetic effect writes no transition at all). -/
theorem reduceMotion_only_guards_hover (isHovered gpu : Bool) (tier : String)
    (hd : HoverResolved) (fd : FocusResolved) (ad : ActiveResolved)
    (s : AnimState) (ld : LoadingResolved) (td : TiltResolved)
    (rd : RippleResolved) (rect : Rect) (cx cy now : ℚ) (st : ElementStyle) :
    applyHoverEffects true isHovered gpu tier hd st = st ∧
    (focusEffectBody true true fd st).transition
      = "all " ++ toString fd.duration ++ "ms ease-out" ∧
    (activeEffectBody true true ad st).transition
      = "all " ++ toString ad.duration ++ "ms ease-out" ∧
    (∃ rest, (runLoadingEffect s true ld).running
      = ⟨s.nextId, loadingKeyframes ld.animation, ld.duration⟩ :: rest) ∧
    (tiltMouseMove td rect cx cy st).transition
      = "transform " ++ toString td.speed ++ "ms ease-out" ∧
    (createRipple rd rect cx cy now).removeDelay = rd.duration := by
  refine ⟨rfl, ?_, ?_, ?_, ?_, rfl⟩
  · cases hg : fd.glow <;> simp [focusEffectBody, hg, String.append_assoc, toString_string]
  · simp [activeEffectBody, String.append_assoc, toString_string]
  · cases hc : s.cleanup with
    | none => exact ⟨s.running, by simp [runLoadingEffect, hc]⟩
    | some i =>
      exact ⟨s.running.filter (fun h => h.id != i), by simp [runLoadingEffect, hc]⟩
  · simp [tiltMouseMove, String.append_assoc, toString_string]

/-- Claim C1 (the code contradicts it): with the pointer exactly at the
surface center, both deltas are 0, so `distance = 0` and the source divides
`0 / 0`, which in JavaScript is `NaN`; the NaN propagates through both
displacement components.  There is no divide-by-zero guard, so the written
transform is `translate(NaNpx, NaNpx)`, not `translate(0px, 0px)`.
`sqrt` is any model of `Math.sqrt`; only `sqrt 0 = 0` is used. -/
theorem magnetic_center_displacement_nan (sqrt : ℚ → ℚ) (hsqrt : sqrt 0 = 0)
    (rect : Rect) :
    magneticMouseMove sqrt (resolveMagnetic {}) rect
        (rect.left + rect.width / 2) (rect.top + rect.height / 2)
      = (JSNum.nan, JSNum.nan) := by
  unfold magneticMouseMove
  norm_num [resolveMagnetic, hsqrt, jdiv, jmul]

/-- Claim C1, witness: on a concrete 100 × 50 surface at the origin, a
pointer event at the center (50, 25) yields the NaN displacement pair. -/
theorem magnetic_center_displacement_nan_witness :
    magneticMouseMove (fun _ => 0) (resolveMagnetic {}) ⟨0, 0, 100, 50⟩
        ((0 : ℚ) + 100 / 2) ((0 : ℚ) + 50 / 2) = (JSNum.nan, JSNum.nan) :=
  magnetic_center_displacement_nan (fun _ => 0) rfl ⟨0, 0, 100, 50⟩

/-- Claim C6.  Toggling the hovered state false → true → false, with no
other interaction-state change, returns the surface's transform and filter
exactly to the neutral values they had before the first toggle (whatever
the reduce-motion flag, GPU flag, tier and resolved hover parameters). -/
theorem hover_toggle_roundtrip (srm gpu : Bool) (tier : String)
    (hd : HoverResolved) (st : ElementStyle) :
    (applyHoverEffects srm false gpu tier hd
        (applyHoverEffects srm true gpu tier hd
          (applyHoverEffects srm false gpu tier hd st))).transform
      = (applyHoverEffects srm false gpu tier hd st).transform ∧
    (applyHoverEffects srm false gpu tier hd
        (applyHoverEffects srm true gpu tier hd
          (applyHoverEffects srm false gpu tier hd st))).filter
      = (applyHoverEffects srm false gpu tier hd st).filter := by
  cases srm <;> simp [applyHoverEffects]

/-- The behavior claim C7 asserts of the click handler: a first click on a
surface with no ripples spawns exactly one ripple — sized to the larger of
the surface's width and height, centered on the click point, removed exactly
when the resolved ripple duration has elapsed — and a second rapid click
leaves two independent ripples, both attached at the time of the second
click, each detached once its own removal timer fires. -/
def RippleClickBehavior (rd : RippleResolved) (rect : Rect)
    (cx1 cy1 t1 cx2 cy2 t2 : ℚ) : Prop :=
  (handleClick rd rect cx1 cy1 t1 []).length = 1 ∧
  (∀ r ∈ handleClick rd rect cx1 cy1 t1 [],
    r.width = max rect.width rect.height ∧
    r.height = max rect.width rect.height ∧
    r.left + r.width / 2 = cx1 - rect.left ∧
    r.top + r.height / 2 = cy1 - rect.top ∧
    rippleRemovalTime r = t1 + rd.duration) ∧
  (handleClick rd rect cx2 cy2 t2 (handleClick rd rect cx1 cy1 t1 [])).length = 2 ∧
  (∀ r ∈ handleClick rd rect cx2 cy2 t2 (handleClick rd rect cx1 cy1 t1 []),
    rippleAliveAt r t2 ∧ ¬ rippleAliveAt r (rippleRemovalTime r))

/-- Claim C7.  With a truthy resolved ripple color, each click spawns exactly
one ripple of size `max width height` centered on the click point, removed
after exactly the resolved ripple duration; two rapid clicks (the second
before the first ripple's removal) produce two coexisting independent
ripples, each self-removing on its own timer. -/
theorem ripple_click_spec (rd : RippleResolved) (rect : Rect)
    (cx1 cy1 t1 cx2 cy2 t2 : ℚ) (hcolor : rd.color ≠ "")
    (h12 : t1 ≤ t2) (hrapid : t2 < t1 + rd.duration) :
    RippleClickBehavior rd rect cx1 cy1 t1 cx2 cy2 t2 := by
  have hdur : 0 < rd.duration := by linarith
  refine ⟨by simp [handleClick, hcolor], ?_, by simp [handleClick, hcolor], ?_⟩
  · intro r hr
    simp [handleClick, hcolor] at hr
    subst hr
    refine ⟨rfl, rfl, by simp [createRipple], by simp [createRipple], rfl⟩
  · intro r hr
    simp [handleClick, hcolor] at hr
    rcases hr with hr | hr <;> subst hr <;>
        simp only [rippleAliveAt, rippleRemovalTime, createRipple, not_and,
          not_lt] <;>
      refine ⟨⟨by linarith, by linarith⟩, fun hle => le_refl _⟩

/-- Claim C7, witness: default ripple parameters on a 100 × 50 surface,
clicks at (10, 10) at time 0 and (20, 20) at time 100 (within the 600 ms
default duration). -/
theorem ripple_click_spec_witness :
    RippleClickBehavior (resolveRipple {}) ⟨0, 0, 100, 50⟩ 10 10 0 20 20 100 :=
  ripple_click_spec (resolveRipple {}) ⟨0, 0, 100, 50⟩ 10 10 0 20 20 100
    (by decide) (by norm_num) (by norm_num [resolveRipple])

/-- Claim C8, counterexample: the keyframe table lookup for an unrecognized
loading-animation name yields nothing at all (`undefined` in the source) —
there is no arm substituting a default animation, while a recognized name
such as `spin` does carry keyframes. -/
theorem loading_fallback_counterexample :
    loadingKeyframes "wiggle" = none ∧ loadingKeyframes "spin" ≠ none := by
  refine ⟨rfl, ?_⟩
  simp [loadingKeyframes]

/-- Claim C8, amended: an unrecognized performance tier falls back to effect
scale 0.8 through the switch's default arm, but an unrecognized
loading-animation name is not replaced by a default animation: the keyframe
lookup yields nothing (`undefined`), and the loading effect passes those
missing keyframes to the created animation unchanged (no error is raised in
the lookup itself). -/
theorem unrecognized_inputs_fallbacks (tier animation : String) (s : AnimState)
    (d : ℚ)
    (ht1 : tier ≠ "economy") (ht2 : tier ≠ "balanced") (ht3 : tier ≠ "high")
    (ha1 : animation ≠ "spin") (ha2 : animation ≠ "pulse")
    (ha3 : animation ≠ "bounce") (ha4 : animation ≠ "dots") :
    getEffectScale tier = 4/5 ∧
    loadingKeyframes animation = none ∧
    (∃ rest, (runLoadingEffect s true ⟨animation, d⟩).running
      = ⟨s.nextId, none, d⟩ :: rest) := by
  have hk : loadingKeyframes animation = none := by
    simp [loadingKeyframes, ha1, ha2, ha3, ha4]
  refine ⟨by simp [getEffectScale, ht1, ht2, ht3], hk, ?_⟩
  cases hc : s.cleanup with
  | none => exact ⟨s.running, by simp [runLoadingEffect, hc, hk]⟩
  | some i =>
    exact ⟨s.running.filter (fun h => h.id != i), by simp [runLoadingEffect, hc, hk]⟩

/-- Claim C8, witness: the tier `turbo` and the animation name `wiggle` are
unrecognized; the tier falls back to scale 0.8 and the animation lookup
yields no keyframes, passed through to the created handle. -/
theorem unrecognized_inputs_fallbacks_witness :
    getEffectScale "turbo" = 4/5 ∧
    loadingKeyframes "wiggle" = none ∧
    (∃ rest, (runLoadingEffect AnimState.init true ⟨"wiggle", 500⟩).running
      = ⟨0, none, 500⟩ :: rest) :=
  unrecognized_inputs_fallbacks "turbo" "wiggle" AnimState.init 500
    (by decide) (by decide) (by decide) (by decide) (by decide) (by decide)
    (by decide)

/-- Claim C9.  When the active (press) state goes true → false the effect
body applies no style change: releasing is the identity on the surface's
style, so the press transform and transition written on entering the active
state remain until some other effect next overwrites them — the source has
no reset branch for leaving the active state. -/
theorem active_release_applies_nothing (srm : Bool) (ad : ActiveResolved)
    (st : ElementStyle) :
    activeEffectBody srm false ad st = st ∧
    activeEffectBody srm false ad (activeEffectBody srm true ad st)
      = activeEffectBody srm true ad st := by
  constructor <;> simp [activeEffectBody]

/-- Claim C10.  The click handler spawns a ripple only when the resolved
ripple color is truthy: for every config whose resolved ripple color is the
empty string, a click produces no ripple at all, regardless of the
configured ripple duration and scale. -/
theorem click_without_color_spawns_nothing (ripple : RippleConfig) (rect : Rect)
    (cx cy now : ℚ) (rs : List RippleSpan)
    (hcolor : (resolveRipple ripple).color = "") :
    handleClick (resolveRipple ripple) rect cx cy now rs = rs := by
  simp [handleClick, hcolor]

/-- Claim C10, witness: a caller override of the ripple color to the empty
string disables the ripple on a concrete click. -/
theorem click_without_color_spawns_nothing_witness :
    handleClick (resolveRipple { color := some "" }) ⟨0, 0, 10, 10⟩ 5 5 0 [] = [] :=
  click_without_color_spawns_nothing { color := some "" } ⟨0, 0, 10, 10⟩ 5 5 0 []
    rfl

end MicroInteractions
